import Mathlib

/-!
Verification of the client-side state-synchronization core of the poster-gallery
application (`src/App.tsx`): the session-derived authorization role, the collection
snapshot and its loading flag, the role-gated mutation handlers, and the view state.

The React component is embedded shallowly:
* the component's `useState` slices become the fields of `AppState`;
* each event handler (`fetchPosters`, `handleDelete`, `handleAddPoster`,
  `handlePosterClick`, the auth subscription callback, and the inline overlay
  close / success callbacks of the JSX) becomes a pure function
  `AppState → ... → AppState × List Effect`;
* outward-visible actions (network requests, `alert`, `console.error`, and
  invocations of `fetchPosters` from a success path) are recorded as `Effect`s;
* the asynchronous `fetchPosters` is split into its synchronous prefix
  (`fetchPostersStart`, everything before the `await`) and its continuation
  (`fetchPostersFinish`, parameterised by the network outcome);
* executions are event traces: `run evs` folds the handlers over the initial
  `useState` values.
-/

namespace PosterGallery

/-- A gallery item, after `Poster` in `src/components/PosterCard.tsx` /
the wire shape of §6 of the spec. -/
structure Poster where
  id : String
  title : String
  category : String
  imageUrl : String
  description : String
  createdAt : String
deriving DecidableEq, Repr

/-- The read-only projection of an authentication session: `session.user.email`
may be absent. -/
structure Session where
  email : Option String
deriving DecidableEq, Repr

/-- `const ADMIN_EMAILS = ["dhakwanhidaya@gmail.com", "dhakwansidra26@gmail.com"]`
(src/App.tsx line 18). -/
def ADMIN_EMAILS : List String :=
  ["dhakwanhidaya@gmail.com", "dhakwansidra26@gmail.com"]

/-- The component state: one field per `useState` slice of `App`
(src/App.tsx lines 21–29). -/
structure AppState where
  posters : List Poster
  selectedPoster : Option Poster
  isModalOpen : Bool
  isUploadDialogOpen : Bool
  isAuthModalOpen : Bool
  selectedCategory : String
  isLoading : Bool
  userEmail : Option String
  isAdmin : Bool
deriving DecidableEq, Repr

/-- The initial `useState` values (src/App.tsx lines 21–29): empty snapshot, no
selection, all overlays closed, category `"all"`, `isLoading` initialized to
`true`, no session email, not admin. -/
def initialState : AppState :=
  { posters := []
    selectedPoster := none
    isModalOpen := false
    isUploadDialogOpen := false
    isAuthModalOpen := false
    selectedCategory := "all"
    isLoading := true
    userEmail := none
    isAdmin := false }

/-- Outward-visible actions emitted by the handlers. -/
inductive Effect where
  /-- the GET request of `fetchPosters` -/
  | networkFetch : Effect
  /-- the DELETE request of `handleDelete` -/
  | networkDelete (posterId : String) : Effect
  /-- the upload POST request (issued inside the UploadDialog collaborator) -/
  | networkUpload : Effect
  /-- an invocation of `fetchPosters()` from a success path -/
  | refreshCall : Effect
  /-- a blocking user-visible notice (`alert(msg)`) -/
  | alert (msg : String) : Effect
  /-- a report to the observability channel (`console.error(msg)`) -/
  | consoleError (msg : String) : Effect
deriving DecidableEq, Repr

/-- `session?.user?.email || null` (src/App.tsx lines 37 and 46): the optional
chain yields the email when session and email exist, and `|| null` coerces a
falsy result — absence or the empty string — to `null`. -/
def sessionEmail : Option Session → Option String
  | none => none
  | some s =>
    match s.email with
    | none => none
    | some e => if e = "" then none else some e

/-- The raw email field of a session, before the `|| null` coercion. -/
def sessionRawEmail : Option Session → Option String
  | none => none
  | some s => s.email

/-- The body shared by the `getSession().then` callback and the
`onAuthStateChange` callback (src/App.tsx lines 36–40 and 45–49): compute
`email`, then `setUserEmail(email)` and
`setIsAdmin(email ? ADMIN_EMAILS.includes(email) : false)` in the same step. -/
def applyAuthEvent (st : AppState) (s? : Option Session) : AppState :=
  let email := sessionEmail s?
  { st with
      userEmail := email
      isAdmin :=
        match email with
        | some e => ADMIN_EMAILS.contains e
        | none => false }

/-- The network outcome awaited by `fetchPosters`: a parsed body with
`success: true` and a poster list, a parsed body with `success: false` and an
error string, or a thrown transport/parse error. -/
inductive FetchOutcome where
  | ok (posters : List Poster) : FetchOutcome
  | failed (error : String) : FetchOutcome
  | transport (error : String) : FetchOutcome
deriving DecidableEq, Repr

/-- The network outcome awaited by a mutation (delete/upload) request. -/
inductive MutOutcome where
  | ok : MutOutcome
  | failed (error : String) : MutOutcome
  | transport (error : String) : MutOutcome
deriving DecidableEq, Repr

/-- The synchronous prefix of `fetchPosters` (src/App.tsx lines 55–65):
`setIsLoading(true)` and the issuing of the GET request. -/
def fetchPostersStart (st : AppState) : AppState × List Effect :=
  ({ st with isLoading := true }, [Effect.networkFetch])

/-- The continuation of `fetchPosters` after the response arrives
(src/App.tsx lines 67–78): on `result.success` replace the snapshot wholesale;
on a reported failure or a thrown error only `console.error`; in the `finally`
block `setIsLoading(false)` in every case. -/
def fetchPostersFinish (st : AppState) : FetchOutcome → AppState × List Effect
  | FetchOutcome.ok ps =>
    ({ st with posters := ps, isLoading := false }, [])
  | FetchOutcome.failed e =>
    ({ st with isLoading := false },
      [Effect.consoleError ("Failed to fetch posters: " ++ e)])
  | FetchOutcome.transport e =>
    ({ st with isLoading := false },
      [Effect.consoleError ("Error fetching posters: " ++ e)])

/-- `handleDelete` (src/App.tsx lines 82–112): if `!isAdmin`, alert and return
before any network activity; otherwise issue the DELETE request and, on
`result.success`, call `fetchPosters()` (recorded as `Effect.refreshCall`); on a
reported failure or a thrown error, `console.error` and alert, no refresh.
The `MutOutcome` argument is the response the network would deliver; on the
unauthorized early return it is never consulted. -/
def handleDelete (st : AppState) (posterId : String) (r : MutOutcome) :
    AppState × List Effect :=
  if !st.isAdmin then
    (st, [Effect.alert "Only admins can delete posters"])
  else
    match r with
    | MutOutcome.ok =>
      (st, [Effect.networkDelete posterId, Effect.refreshCall])
    | MutOutcome.failed e =>
      (st, [Effect.networkDelete posterId,
            Effect.consoleError ("Failed to delete poster: " ++ e),
            Effect.alert "Failed to delete poster"])
    | MutOutcome.transport e =>
      (st, [Effect.networkDelete posterId,
            Effect.consoleError ("Error deleting poster: " ++ e),
            Effect.alert "Failed to delete poster"])

/-- `handleAddPoster` (src/App.tsx lines 118–125): if `!isAdmin`, alert, open
the auth modal and return; otherwise open the upload dialog. -/
def handleAddPoster (st : AppState) : AppState × List Effect :=
  if !st.isAdmin then
    ({ st with isAuthModalOpen := true },
      [Effect.alert
        "Only admins can upload posters. Please sign in with an admin account."])
  else
    ({ st with isUploadDialogOpen := true }, [])

/-- `handlePosterClick` (src/App.tsx lines 135–138): `setSelectedPoster(poster)`
and `setIsModalOpen(true)` in the same handler invocation. -/
def handlePosterClick (st : AppState) (p : Poster) : AppState :=
  { st with selectedPoster := some p, isModalOpen := true }

/-- `filteredPosters` (src/App.tsx lines 131–133): derived on every render from
the current snapshot and category, never stored in state. -/
def filteredPosters (selectedCategory : String) (posters : List Poster) :
    List Poster :=
  if selectedCategory = "all" then posters
  else posters.filter (fun poster => poster.category == selectedCategory)

/-- Modelled from the spec: the upload request itself and its failure handling
live in `components/UploadDialog.tsx`, which is not under `src/`. Per §4.3 of
the spec, `requestUpload` has the same shape as `requestDelete`: refresh on a
success response — wired in `src/App.tsx` line 256 as
`onUploadSuccess={fetchPosters}` — and a user-visible notice with no refresh on
a reported or transport-level failure. -/
def uploadRequest : MutOutcome → List Effect
  | MutOutcome.ok => [Effect.networkUpload, Effect.refreshCall]
  | MutOutcome.failed _ => [Effect.networkUpload, Effect.alert "Failed to upload poster"]
  | MutOutcome.transport _ => [Effect.networkUpload, Effect.alert "Failed to upload poster"]

/-- The discrete events that drive the component: authentication notifications,
the two halves of a refresh, and the user-interaction callbacks wired in the JSX
(src/App.tsx lines 140–268). -/
inductive Ev where
  /-- the initial `getSession` result or an `onAuthStateChange` notification -/
  | authEvent (s? : Option Session) : Ev
  /-- a `fetchPosters()` call begins -/
  | refreshStart : Ev
  /-- the response of an in-flight `fetchPosters()` arrives -/
  | refreshFinish (r : FetchOutcome) : Ev
  /-- the category tabs' `onValueChange={setSelectedCategory}` -/
  | selectCategory (c : String) : Ev
  /-- a card's `onClick={() => handlePosterClick(poster)}` -/
  | posterClick (p : Poster) : Ev
  /-- the detail modal's `onClose={() => setIsModalOpen(false)}` -/
  | closeModal : Ev
  /-- a card's delete click: `handleDelete(posterId)` together with the
  response its DELETE request receives -/
  | deleteClick (posterId : String) (r : MutOutcome) : Ev
  /-- the Add Poster button's `onClick={handleAddPoster}` -/
  | addPosterClick : Ev
  /-- the upload dialog's `onUploadSuccess={fetchPosters}` -/
  | uploadSuccess : Ev
  /-- the upload dialog's `onClose={() => setIsUploadDialogOpen(false)}` -/
  | closeUploadDialog : Ev
  /-- the auth modal's `onAuthSuccess`: close the auth modal and `fetchPosters()` -/
  | authSuccess : Ev
  /-- the auth modal's `onClose={() => setIsAuthModalOpen(false)}` -/
  | closeAuthModal : Ev
deriving DecidableEq, Repr

/-- One event step: dispatch to the handler the JSX wires to the event. -/
def step (st : AppState) : Ev → AppState × List Effect
  | Ev.authEvent s? => (applyAuthEvent st s?, [])
  | Ev.refreshStart => fetchPostersStart st
  | Ev.refreshFinish r => fetchPostersFinish st r
  | Ev.selectCategory c => ({ st with selectedCategory := c }, [])
  | Ev.posterClick p => (handlePosterClick st p, [])
  | Ev.closeModal => ({ st with isModalOpen := false }, [])
  | Ev.deleteClick posterId r => handleDelete st posterId r
  | Ev.addPosterClick => handleAddPoster st
  | Ev.uploadSuccess => (st, [Effect.refreshCall])
  | Ev.closeUploadDialog => ({ st with isUploadDialogOpen := false }, [])
  | Ev.authSuccess => ({ st with isAuthModalOpen := false }, [Effect.refreshCall])
  | Ev.closeAuthModal => ({ st with isAuthModalOpen := false }, [])

/-- Fold the event handlers over a start state. -/
def runFrom (st : AppState) (evs : List Ev) : AppState :=
  evs.foldl (fun s e => (step s e).1) st

/-- The state after an event trace from the initial `useState` values. -/
def run (evs : List Ev) : AppState :=
  runFrom initialState evs

/-- The loading flag a trace leaves behind: `true` after a `refreshStart`,
`false` after a `refreshFinish` (whatever its outcome), initially `true`. -/
def loadingAfter (evs : List Ev) : Bool :=
  evs.foldl
    (fun b e =>
      match e with
      | Ev.refreshStart => true
      | Ev.refreshFinish _ => false
      | _ => b)
    true

/-- Whether a trace ends inside a refresh: a `refreshStart` has occurred with no
later `refreshFinish`. -/
def refreshInProgress (evs : List Ev) : Bool :=
  evs.foldl
    (fun b e =>
      match e with
      | Ev.refreshStart => true
      | Ev.refreshFinish _ => false
      | _ => b)
    false

/-- A sample poster, used to instantiate universally quantified theorems. -/
def samplePoster : Poster :=
  { id := "p1", title := "Sunset", category := "Vintage"
    imageUrl := "https://example.com/p1.png"
    description := "a vintage sunset", createdAt := "2024-01-01" }

/-- A five-element snapshot: three `"Vintage"` posters and two others
(the scenario of §8 of the spec). -/
def samplePosters : List Poster :=
  [ samplePoster
  , { id := "p2", title := "Grid", category := "Typography"
      imageUrl := "u2", description := "d2", createdAt := "2024-01-02" }
  , { id := "p3", title := "Sea", category := "Vintage"
      imageUrl := "u3", description := "d3", createdAt := "2024-01-03" }
  , { id := "p4", title := "Dots", category := "Abstract"
      imageUrl := "u4", description := "d4", createdAt := "2024-01-04" }
  , { id := "p5", title := "Car", category := "Vintage"
      imageUrl := "u5", description := "d5", createdAt := "2024-01-05" } ]

/-- Helper: membership in the two-element allowlist is equality with one of the
two admin addresses. -/
theorem mem_ADMIN_EMAILS (e : String) :
    e ∈ ADMIN_EMAILS ↔
      e = "dhakwanhidaya@gmail.com" ∨ e = "dhakwansidra26@gmail.com" := by
  simp [ADMIN_EMAILS]

/-- Helper: `List.contains` on the allowlist agrees with membership. -/
theorem contains_ADMIN_EMAILS (e : String) :
    (ADMIN_EMAILS.contains e = true) ↔ e ∈ ADMIN_EMAILS := by
  simp [List.elem_iff]

/-- **C1.** For every state and every session value delivered by the initial
`getSession` fetch or by an `onAuthStateChange` notification (both run the same
body, embedded as `applyAuthEvent`), the derived role satisfies
`isAdmin = (email is present AND email ∈ ADMIN_EMAILS)`: `isAdmin` is `true`
exactly when the session carries an email that is a member of the allowlist,
and `false` for every other session, including a sessionless event. -/
theorem isAdmin_iff_email_in_allowlist (st : AppState) (s? : Option Session) :
    (applyAuthEvent st s?).isAdmin = true ↔
      ∃ e, sessionRawEmail s? = some e ∧ e ∈ ADMIN_EMAILS := by
  cases s? with
  | none => simp [applyAuthEvent, sessionEmail, sessionRawEmail]
  | some s =>
    cases h : s.email with
    | none => simp [applyAuthEvent, sessionEmail, sessionRawEmail, h]
    | some e =>
      by_cases he : e = ""
      · subst he
        simp [applyAuthEvent, sessionEmail, sessionRawEmail, h, ADMIN_EMAILS]
      · simp only [applyAuthEvent, sessionEmail, sessionRawEmail, h, if_neg he]
        simp [contains_ADMIN_EMAILS]

/-- **C9.** The admin allowlist is exactly the two-element list
`["dhakwanhidaya@gmail.com", "dhakwansidra26@gmail.com"]`, and for every session
carrying an email, the derived `isAdmin` is `true` precisely when that email
equals one of the two addresses — membership is exact string equality. -/
theorem allowlist_is_exactly_two_admins :
    ADMIN_EMAILS = ["dhakwanhidaya@gmail.com", "dhakwansidra26@gmail.com"] ∧
    ∀ (st : AppState) (e : String),
      (applyAuthEvent st (some { email := some e })).isAdmin = true ↔
        (e = "dhakwanhidaya@gmail.com" ∨ e = "dhakwansidra26@gmail.com") := by
  refine ⟨rfl, fun st e => ?_⟩
  rw [isAdmin_iff_email_in_allowlist]
  simp [sessionRawEmail, mem_ADMIN_EMAILS]

/-- **C10.** In the initial state — before any event, in particular before the
first `refresh()` is issued — the loading flag is already `true`: it is
initialized to `true`, not `false`. -/
theorem initial_isLoading_true :
    initialState.isLoading = true ∧ (run []).isLoading = true :=
  ⟨rfl, rfl⟩

/-- **C2.** For every selected category `c` and snapshot: `c = "all"` yields the
whole snapshot; any other `c` yields exactly the posters of category `c`, as a
subsequence of the snapshot (order preserved, membership characterized). The
value is a pure function of the current snapshot and filter — recomputed on
every render, never cached in state. -/
theorem filteredPosters_spec (c : String) (ps : List Poster) :
    (c = "all" → filteredPosters c ps = ps) ∧
    (c ≠ "all" →
      filteredPosters c ps = ps.filter (fun p => p.category == c) ∧
      List.Sublist (filteredPosters c ps) ps ∧
      ∀ p, p ∈ filteredPosters c ps ↔ p ∈ ps ∧ p.category = c) := by
  constructor
  · intro h
    simp [filteredPosters, h]
  · intro h
    refine ⟨by simp [filteredPosters, h], ?_, ?_⟩
    · simp only [filteredPosters, if_neg h]
      exact List.filter_sublist ps
    · intro p
      simp [filteredPosters, h]

/-- Witness for C2 at the scenario of §8: category `"Vintage"` against a
snapshot of three `"Vintage"` and two other posters selects exactly the three
`"Vintage"` entries in snapshot order. -/
theorem filteredPosters_spec_witness :
    ("Vintage" ≠ "all") ∧
      filteredPosters "Vintage" samplePosters =
        samplePosters.filter (fun p => p.category == "Vintage") :=
  ⟨by decide, ((filteredPosters_spec "Vintage" samplePosters).2 (by decide)).1⟩

/-- **C3.** Every `handleDelete` call made while `isAdmin` is `false` fails
immediately: the one emitted effect is the user-visible authorization notice,
no network delete request is issued for any id, and the state — in particular
the `posters` snapshot — is unchanged, whatever response the network would have
delivered. -/
theorem handleDelete_unauthorized (st : AppState) (posterId : String)
    (r : MutOutcome) (h : st.isAdmin = false) :
    handleDelete st posterId r =
      (st, [Effect.alert "Only admins can delete posters"]) ∧
    (handleDelete st posterId r).1.posters = st.posters ∧
    ∀ q, Effect.networkDelete q ∉ (handleDelete st posterId r).2 := by
  have hd : handleDelete st posterId r =
      (st, [Effect.alert "Only admins can delete posters"]) := by
    simp [handleDelete, h]
  refine ⟨hd, by rw [hd], ?_⟩
  intro q
  rw [hd]
  simp

/-- Witness for C3: a non-admin delete click on `"p1"` in the initial state
alerts, issues no network call, and leaves the empty snapshot unchanged. -/
theorem handleDelete_unauthorized_witness :
    initialState.isAdmin = false ∧
      handleDelete initialState "p1" MutOutcome.ok =
        (initialState, [Effect.alert "Only admins can delete posters"]) :=
  ⟨rfl, (handleDelete_unauthorized initialState "p1" MutOutcome.ok rfl).1⟩

/-- **C5.** For every delete request issued by an admin and for every upload
request: a success response is followed by exactly one `fetchPosters()` call
(`Effect.refreshCall`), while a reported failure or transport error is followed
by zero refresh calls and surfaces a user-visible alert. -/
theorem mutation_refresh_discipline (st : AppState) (posterId e : String)
    (h : st.isAdmin = true) :
    (handleDelete st posterId MutOutcome.ok).2.count Effect.refreshCall = 1 ∧
    ((handleDelete st posterId (MutOutcome.failed e)).2.count Effect.refreshCall = 0 ∧
      Effect.alert "Failed to delete poster" ∈
        (handleDelete st posterId (MutOutcome.failed e)).2) ∧
    ((handleDelete st posterId (MutOutcome.transport e)).2.count Effect.refreshCall = 0 ∧
      Effect.alert "Failed to delete poster" ∈
        (handleDelete st posterId (MutOutcome.transport e)).2) ∧
    (uploadRequest MutOutcome.ok).count Effect.refreshCall = 1 ∧
    ((uploadRequest (MutOutcome.failed e)).count Effect.refreshCall = 0 ∧
      Effect.alert "Failed to upload poster" ∈ uploadRequest (MutOutcome.failed e)) ∧
    ((uploadRequest (MutOutcome.transport e)).count Effect.refreshCall = 0 ∧
      Effect.alert "Failed to upload poster" ∈ uploadRequest (MutOutcome.transport e)) := by
  refine ⟨?_, ⟨?_, ?_⟩, ⟨?_, ?_⟩, ?_, ⟨?_, ?_⟩, ⟨?_, ?_⟩⟩ <;>
    simp [handleDelete, h, uploadRequest, List.count_cons]

/-- Witness for C5: in an admin state, a successful delete of `"p1"` triggers
exactly one refresh, and a server-reported failure triggers none. -/
theorem mutation_refresh_discipline_witness :
    { initialState with isAdmin := true }.isAdmin = true ∧
      (handleDelete { initialState with isAdmin := true } "p1"
          MutOutcome.ok).2.count Effect.refreshCall = 1 :=
  ⟨rfl,
    (mutation_refresh_discipline { initialState with isAdmin := true }
      "p1" "boom" rfl).1⟩

/-- **C6.** For every refresh whose outcome is a server-reported failure
(`success: false`) or a transport-level error, the continuation of
`fetchPosters` leaves the snapshot unchanged, emits exactly one report to the
observability channel (`console.error`), and raises no user-visible alert. -/
theorem fetch_failure_keeps_snapshot (st : AppState) (e : String) :
    ((fetchPostersFinish st (FetchOutcome.failed e)).1.posters = st.posters ∧
      (fetchPostersFinish st (FetchOutcome.failed e)).2 =
        [Effect.consoleError ("Failed to fetch posters: " ++ e)] ∧
      ∀ m, Effect.alert m ∉ (fetchPostersFinish st (FetchOutcome.failed e)).2) ∧
    ((fetchPostersFinish st (FetchOutcome.transport e)).1.posters = st.posters ∧
      (fetchPostersFinish st (FetchOutcome.transport e)).2 =
        [Effect.consoleError ("Error fetching posters: " ++ e)] ∧
      ∀ m, Effect.alert m ∉ (fetchPostersFinish st (FetchOutcome.transport e)).2) := by
  refine ⟨⟨rfl, rfl, ?_⟩, ⟨rfl, rfl, ?_⟩⟩ <;> intro m <;> simp [fetchPostersFinish]

/-- **C8.** Every `handleAddPoster` call has exactly one of two outcomes. Not
admin: one user-visible authorization notice is emitted, the auth overlay
opens, and the upload overlay flag is untouched — in particular it stays closed
when it was closed. Admin: the upload overlay opens, the auth overlay flag is
untouched, and no notice is emitted. Never both: whenever a notice is emitted,
the upload overlay flag is unchanged. -/
theorem handleAddPoster_outcomes (st : AppState) :
    (st.isAdmin = false →
      (handleAddPoster st).1.isAuthModalOpen = true ∧
      (handleAddPoster st).1.isUploadDialogOpen = st.isUploadDialogOpen ∧
      (st.isUploadDialogOpen = false →
        (handleAddPoster st).1.isUploadDialogOpen = false) ∧
      (handleAddPoster st).2 =
        [Effect.alert
          "Only admins can upload posters. Please sign in with an admin account."]) ∧
    (st.isAdmin = true →
      (handleAddPoster st).1.isUploadDialogOpen = true ∧
      (handleAddPoster st).1.isAuthModalOpen = st.isAuthModalOpen ∧
      (handleAddPoster st).2 = []) ∧
    ((handleAddPoster st).2 ≠ [] →
      (handleAddPoster st).1.isUploadDialogOpen = st.isUploadDialogOpen) := by
  cases h : st.isAdmin with
  | false => simp [handleAddPoster, h]
  | true => simp [handleAddPoster, h]

/-- Witness for C8, the scenario of §8: `requestUpload` from the initial
(non-admin) state opens the auth overlay, leaves the upload overlay closed, and
records one user-visible notice. -/
theorem handleAddPoster_outcomes_witness :
    (handleAddPoster initialState).1.isAuthModalOpen = true ∧
      (handleAddPoster initialState).1.isUploadDialogOpen = false ∧
      (handleAddPoster initialState).2 =
        [Effect.alert
          "Only admins can upload posters. Please sign in with an admin account."] := by
  have h := (handleAddPoster_outcomes initialState).1 rfl
  exact ⟨h.1, h.2.2.1 rfl, h.2.2.2⟩

/-- Helper: `handleDelete` never modifies the component state — it only emits
effects; state changes happen through the refresh it may trigger. -/
theorem handleDelete_fst (st : AppState) (posterId : String) (r : MutOutcome) :
    (handleDelete st posterId r).1 = st := by
  cases r <;> by_cases h : st.isAdmin <;> simp [handleDelete, h]

/-- Helper: no handler other than the two refresh halves touches `isLoading`;
one step maps the flag exactly as the refresh-boundary fold does. -/
theorem isLoading_step (st : AppState) (e : Ev) :
    (step st e).1.isLoading =
      (match e with
        | Ev.refreshStart => true
        | Ev.refreshFinish _ => false
        | _ => st.isLoading) := by
  cases e with
  | authEvent s? => rfl
  | refreshStart => rfl
  | refreshFinish r => cases r <;> rfl
  | selectCategory c => rfl
  | posterClick p => rfl
  | closeModal => rfl
  | deleteClick posterId r =>
    show (handleDelete st posterId r).1.isLoading = st.isLoading
    rw [handleDelete_fst]
  | addPosterClick =>
    by_cases h : st.isAdmin <;> simp [step, handleAddPoster, h]
  | uploadSuccess => rfl
  | closeUploadDialog => rfl
  | authSuccess => rfl
  | closeAuthModal => rfl

/-- Helper: along any trace, `isLoading` is the fold of the refresh boundary
events over the flag of the start state. -/
theorem isLoading_runFrom (evs : List Ev) :
    ∀ st : AppState,
      (runFrom st evs).isLoading =
        evs.foldl
          (fun b e =>
            match e with
            | Ev.refreshStart => true
            | Ev.refreshFinish _ => false
            | _ => b)
          st.isLoading := by
  induction evs with
  | nil => intro st; rfl
  | cons e rest ih =>
    intro st
    show (runFrom (step st e).1 rest).isLoading = _
    rw [ih, List.foldl_cons, isLoading_step]

/-- **C4 (amended).** `refresh()` drives the loading flag at its boundaries in
every outcome: its start sets `isLoading` to `true` and its end sets it back to
`false` whether the response was a success, a server-reported failure, or a
transport error — so along any trace `isLoading` is `true` from a
`refreshStart` to the next `refreshFinish` and `false` from a `refreshFinish`
to the next `refreshStart`. However, `isLoading` is initialized to `true`, so
before the first refresh event an observer sees `true`, not `false`. -/
theorem isLoading_refresh_boundaries :
    (∀ st : AppState, (fetchPostersStart st).1.isLoading = true) ∧
    (∀ (st : AppState) (r : FetchOutcome),
      (fetchPostersFinish st r).1.isLoading = false) ∧
    (∀ evs : List Ev, (run evs).isLoading = loadingAfter evs) := by
  refine ⟨fun st => rfl, fun st r => ?_, fun evs => ?_⟩
  · cases r <;> rfl
  · exact isLoading_runFrom evs initialState

/-- Counterexample to C4 as stated: in the empty trace no refresh is in
progress — none was ever started — yet `isLoading` is `true`, contradicting
"`isLoading` is `false` outside the span of a `refresh()` call". -/
theorem isLoading_initial_counterexample :
    refreshInProgress [] = false ∧ (run []).isLoading = true :=
  ⟨rfl, rfl⟩

/-- Helper: a single step preserves the one-directional coupling "detail
overlay open implies a poster is selected": only `posterClick` opens the
overlay, and it selects a poster in the same step; no event clears the
selection. -/
theorem modal_implies_selection_step (st : AppState) (e : Ev)
    (h : st.isModalOpen = true → st.selectedPoster.isSome = true) :
    (step st e).1.isModalOpen = true →
      (step st e).1.selectedPoster.isSome = true := by
  cases e with
  | authEvent s? => exact h
  | refreshStart => exact h
  | refreshFinish r => cases r <;> exact h
  | selectCategory c => exact h
  | posterClick p => intro _; rfl
  | closeModal => intro hc; cases hc
  | deleteClick posterId r =>
    show (handleDelete st posterId r).1.isModalOpen = true →
      (handleDelete st posterId r).1.selectedPoster.isSome = true
    rw [handleDelete_fst]
    exact h
  | addPosterClick =>
    by_cases ha : st.isAdmin <;> simp [step, handleAddPoster, ha] <;> exact h
  | uploadSuccess => exact h
  | closeUploadDialog => exact h
  | authSuccess => exact h
  | closeAuthModal => exact h

/-- Helper: the coupling "detail overlay open implies a poster is selected" is
inductive along every trace. -/
theorem modal_implies_selection_runFrom (evs : List Ev) :
    ∀ st : AppState,
      (st.isModalOpen = true → st.selectedPoster.isSome = true) →
      (runFrom st evs).isModalOpen = true →
        (runFrom st evs).selectedPoster.isSome = true := by
  induction evs with
  | nil => intro st h; exact h
  | cons e rest ih =>
    intro st h
    exact ih (step st e).1 (modal_implies_selection_step st e h)

/-- **C7 (amended).** `handlePosterClick(p)` sets `selectedPoster = p` and opens
the detail overlay in the same step, and in every reachable state the detail
overlay is never open without a poster being selected. The converse does not
hold: the detail modal's `onClose` only clears `isModalOpen` and leaves
`selectedPoster` set, so after closing the overlay a selection persists with
the overlay closed. -/
theorem selection_overlay_coupling :
    (∀ (st : AppState) (p : Poster),
      (handlePosterClick st p).selectedPoster = some p ∧
      (handlePosterClick st p).isModalOpen = true) ∧
    (∀ evs : List Ev,
      (run evs).isModalOpen = true → ((run evs).selectedPoster).isSome = true) := by
  refine ⟨fun st p => ⟨rfl, rfl⟩, fun evs => ?_⟩
  exact modal_implies_selection_runFrom evs initialState (fun hc => by cases hc)

/-- Witness for the amended C7: after clicking `samplePoster` the overlay is
open and, by the theorem, a poster is selected. -/
theorem selection_overlay_coupling_witness :
    ((run [Ev.posterClick samplePoster]).selectedPoster).isSome = true :=
  selection_overlay_coupling.2 [Ev.posterClick samplePoster] rfl

/-- Counterexample to C7 as stated: clicking `samplePoster` and then closing
the detail modal reaches a state where `selectedPoster` is still
`some samplePoster` while the detail overlay is closed — a selection exists
without the detail overlay open. -/
theorem selection_without_overlay_counterexample :
    (run [Ev.posterClick samplePoster, Ev.closeModal]).isModalOpen = false ∧
    (run [Ev.posterClick samplePoster, Ev.closeModal]).selectedPoster =
      some samplePoster :=
  ⟨rfl, rfl⟩

end PosterGallery
